import Mathlib

/-!
Verification development for the waste-marketplace canister (`src/index.ts`).

The TypeScript source is shallowly embedded below.  Conventions of the
embedding:

* `Principal` values are represented by their textual form (`String`): the
  source only ever compares principals to stored author strings through
  JavaScript loose equality, which goes through `Principal.toString()`.
* `nat64` timestamps and amounts are `Nat`.
* `StableBTreeMap` stores are association lists of key/value pairs; `insert`
  overwrites, `get` returns `Option`, and `map.get k == None` in the source
  (azle returns the shared `None` constant for an absent key) is modelled as
  the lookup returning `none`.
* `ic.caller()`, `ic.time()` and the `uuidv4()` results are ambient inputs of
  an operation and are passed explicitly as parameters.
* Each operation returns an `Outcome`: `ok`/`err` are the tagged
  `Ok`/`Err` results, and `trap` is a JavaScript exception thrown outside the
  operation's `try` block (an uncaught fault).  An exception thrown inside the
  `try` block is caught by the source and surfaces as `err (InternalError _)`.
* Record fields follow the fields the source functions actually read and
  write (e.g. `authorId`, the `status` flag `createUser` stores), which in a
  few places differ from the declared candid `Record` (`authoId`, a `User`
  record without `status`, a `WastePayload` without `id`/`categoryId`).  The
  functions are the authority for the embedding, and the payload carries the
  `id` and `categoryId` fields that `createWaste`/`updateWaste` read off it.
-/

set_option maxHeartbeats 1000000

namespace WasteMarket

/-- Association-list lookup, modelling `StableBTreeMap.get` (keys are unique
by construction of `insert`). -/
def getA {κ α : Type} [DecidableEq κ] (k : κ) : List (κ × α) → Option α
  | [] => none
  | (k', v) :: t => if k' = k then some v else getA k t

/-- Association-list insert-or-overwrite, modelling `StableBTreeMap.insert`. -/
def putA {κ α : Type} [DecidableEq κ] (k : κ) (v : α) : List (κ × α) → List (κ × α)
  | [] => [(k, v)]
  | (k', v') :: t => if k' = k then (k, v) :: t else (k', v') :: putA k v t

/-- Association-list removal, modelling `StableBTreeMap.remove` /
`pendingOrders.remove`. -/
def removeA {κ α : Type} [DecidableEq κ] (k : κ) : List (κ × α) → List (κ × α)
  | [] => []
  | (k', v') :: t => if k' = k then removeA k t else (k', v') :: removeA k t

/-- Association-list membership, modelling `StableBTreeMap.containsKey`. -/
def containsA {κ α : Type} [DecidableEq κ] (k : κ) (l : List (κ × α)) : Bool :=
  (getA k l).isSome

/-- A JavaScript primitive value, as far as the source compares them with
strict (in)equality: a boolean or a string. -/
inductive JsVal : Type
  | vBool : Bool → JsVal
  | vStr : String → JsVal
deriving DecidableEq

/-- JavaScript strict equality `===` between primitive values: values of
different types are never strictly equal.  The source compares the boolean
`status` field of a listing against the strings "active" / "inactive". -/
def jsStrictEq : JsVal → JsVal → Bool
  | .vBool a, .vBool b => a == b
  | .vStr a, .vStr b => a == b
  | _, _ => false

/-- The 32-bit string hash of the `hashcode` npm package
(`hash = ((hash << 5) - hash) + charCode`, coerced to a signed 32-bit integer
at every step), kept here as the unsigned residue mod 2^32; the signed
interpretation only matters for the final `Math.abs`.  Characters are taken
as code points, which agrees with UTF-16 code units on the ASCII data the
canister hashes. -/
def hashCodeValue (s : String) : Nat :=
  s.data.foldl (fun h c => (31 * h + c.toNat) % 4294967296) 0

/-- The source function `hash`:
`BigInt(Math.abs(hashCode().value(input)))` for a string input.  The residue
`h` mod 2^32 denotes the signed 32-bit value `h` (if `h < 2^31`) or
`h - 2^32` (otherwise), so `Math.abs` yields `h` or `2^32 - h`. -/
def hash (s : String) : Nat :=
  let h := hashCodeValue s
  if h < 2147483648 then h else 4294967296 - h

/-! ### IEEE-754 model of the fee computation

`processPayment` computes
`nat64.fromNumber(Number(amount) * 0.05)`: the amount is rounded to a
JavaScript `number` (an IEEE-754 binary64 double), multiplied by the double
nearest to `0.05`, the product is rounded again, and the result is converted
back to a 64-bit natural — a conversion that requires an integral value and
throws otherwise.  The model below carries doubles as exact values
`mantissa * 2^exponent` with a mantissa of at most 53 bits; rounding is round
to nearest, ties to even.  Overflow to infinity and subnormal underflow
cannot occur for `nat64` amounts and are not modelled. -/

/-- Fuel-driven bit length of a natural number (256 bits of fuel cover every
intermediate value the fee model produces). -/
def bitLenAux : Nat → Nat → Nat
  | 0, _ => 0
  | fuel + 1, n => if n = 0 then 0 else bitLenAux fuel (n / 2) + 1

/-- Bit length of a natural number. -/
def bitLen (n : Nat) : Nat := bitLenAux 256 n

/-- Round `N / 2^sh` to the nearest integer, ties to even. -/
def roundShift (N sh : Nat) : Nat :=
  if sh = 0 then N
  else
    let q := N / 2 ^ sh
    let r := N % 2 ^ sh
    let half := 2 ^ (sh - 1)
    if half < r then q + 1
    else if r < half then q
    else if q % 2 = 0 then q else q + 1

/-- Round the exact value `N * 2^e` to the nearest IEEE-754 binary64 double,
returned as a mantissa/exponent pair denoting `mantissa * 2^exponent`. -/
def roundDouble (N : Nat) (e : Int) : Nat × Int :=
  let b := bitLen N
  if b ≤ 53 then (N, e) else (roundShift N (b - 53), e + (b - 53 : Nat))

/-- Mantissa of the IEEE-754 binary64 double nearest to `0.05`: the double is
`7205759403792794 * 2^-57` (the literal `0.05` is not exactly representable). -/
def d05Mantissa : Nat := 7205759403792794

/-- Exponent of the double nearest to `0.05`. -/
def d05Exp : Int := -57

/-- The fee computation of `processPayment`:
`Number(amount) * 0.05` in binary64 arithmetic, converted back to a natural.
Returns `none` when the product is not integral, in which case the conversion
throws inside the `try` block and the operation reports `InternalError`. -/
def feesViaFloat (amount : Nat) : Option Nat :=
  let a := roundDouble amount 0
  let p := roundDouble (a.1 * d05Mantissa) (a.2 + d05Exp)
  if 0 ≤ p.2 then some (p.1 * 2 ^ p.2.toNat)
  else if 2 ^ (-p.2).toNat ∣ p.1 then some (p.1 / 2 ^ (-p.2).toNat)
  else none

/-! ### Data model -/

/-- A stored user, with the fields `createUser` writes: `role` is copied from
the requested name, and the `status` flag is `true` ("active by default"). -/
structure JsUser : Type where
  id : String
  name : String
  role : String
  status : Bool
  createdAt : Nat
  updatedAt : Nat
deriving DecidableEq

/-- A stored waste listing, with the fields `createWaste` writes: `status`
is the boolean verified/unverified flag, `authorId` is the textual principal
of the creator, and `senderId` is only ever written by the (unreachable)
tail of `updateWaste`, hence optional. -/
structure JsWaste : Type where
  id : String
  categoryId : String
  description : String
  weight : Nat
  status : Bool
  authorId : String
  senderId : Option String
  createdAt : Nat
  updatedAt : Nat
deriving DecidableEq

/-- A stored payment, with the fields `processPayment` writes. -/
structure JsPayment : Type where
  id : String
  waste_id : String
  weight : Nat
  amount : Nat
  payment_method : String
  transaction_id : String
  paid_at : Nat
  fees : Nat
deriving DecidableEq

/-- The listing payload.  The candid `WastePayload` record only declares
`description`, `weight` and `status`, but `createWaste` and `updateWaste`
also read `wastepayload.id` and `wastepayload.categoryId`; the payload of
the embedding carries those fields (spec: `updateWaste` takes
"listing id + payload"). -/
structure JsWastePayload : Type where
  id : String
  categoryId : String
  description : String
  weight : Nat
  status : Bool
deriving DecidableEq

/-- The error variants of the source `Error` variant type. -/
inductive ApiError : Type
  | NotFound : String → ApiError
  | Unauthorized : String → ApiError
  | Forbidden : String → ApiError
  | BadRequest : String → ApiError
  | InternalError : String → ApiError
  | UserAlreadyExists : String → ApiError
  | InvalidUserRole : String → ApiError
  | UserDoesNotExist : String → ApiError
  | WasteDoesNotExist : String → ApiError
  | InactiveUser : String → ApiError
  | UnauthorizedWasteEdit : String → ApiError
  | InvalidWasteStatusUpdate : String → ApiError
deriving DecidableEq

/-- The observable outcome of one canister method call: a tagged `Ok`, a
tagged `Err`, or an uncaught JavaScript exception escaping the method
(`trap`) — the latter only arises from code outside a `try` block. -/
inductive Outcome (α : Type) : Type
  | ok : α → Outcome α
  | err : ApiError → Outcome α
  | trap : String → Outcome α
deriving DecidableEq

/-- The persistent stores the embedded operations touch.  The owner and
category stores of the source are never read or written by these
operations and are omitted. -/
structure CanisterState : Type where
  users : List (String × JsUser)
  wastes : List (String × JsWaste)
  payments : List (String × JsPayment)
deriving DecidableEq

/-! ### Operations -/

/-- `createUser(name)`: rejects a caller that already has an account, then
validates the requested role against `USER_ROLES = ["sender", "receiver"]`
(the source message interpolates the offending name; the embedding keeps a
fixed message), then stores a new active user whose `name` and `role` both
equal the argument. -/
def createUser (s : CanisterState) (callerText userName : String) (t : Nat) :
    Outcome JsUser × CanisterState :=
  if containsA callerText s.users then
    (.err (.UserAlreadyExists "You already have an account"), s)
  else if userName ≠ "sender" ∧ userName ≠ "receiver" then
    (.err (.InvalidUserRole "Invalid role"), s)
  else
    let u : JsUser :=
      { id := callerText, name := userName, role := userName, status := true
        createdAt := t, updatedAt := t }
    (.ok u, { s with users := putA callerText u s.users })

/-- `createWaste(wastepayload)`: rejects an unregistered caller with
`Unauthorized`, a deactivated caller with `Forbidden`, and otherwise stores a
listing whose `authorId` is the caller and whose fields come from the
payload. -/
def createWaste (s : CanisterState) (callerText : String) (p : JsWastePayload)
    (t : Nat) : Outcome JsWaste × CanisterState :=
  match getA callerText s.users with
  | none => (.err (.Unauthorized "Create an account first"), s)
  | some u =>
    if u.status then
      let w : JsWaste :=
        { id := p.id, categoryId := p.categoryId, description := p.description
          weight := p.weight, status := p.status, authorId := callerText
          senderId := none, createdAt := t, updatedAt := t }
      (.ok w, { s with wastes := putA p.id w s.wastes })
    else
      (.err (.Forbidden "Account is currently deactived"), s)

/-- `updateWaste(wastepayload)`: `NotFound` when the listing id is absent.
For a registered caller, the source first applies the sender ownership rule
(`role == "sender"` and caller loosely unequal to the stored `authorId`,
which compares the textual principal to the author string, yields
`Forbidden`).  Every path that survives that check then evaluates
`if (current !== waste.Some.authorId)` where `current` is an undeclared
variable: the `ReferenceError` is caught by the surrounding `try` and the
call reports `InternalError`, so no update is ever persisted.  An
unregistered caller fails the same way one line earlier
(`userInfo.role` dereferences `undefined` inside the `try`). -/
def updateWaste (s : CanisterState) (callerText : String) (p : JsWastePayload) :
    Outcome JsWaste × CanisterState :=
  match getA p.id s.wastes with
  | none => (.err (.NotFound "Waste not found"), s)
  | some w =>
    match getA callerText s.users with
    | none =>
      (.err (.InternalError
        "TypeError: Cannot read properties of undefined (reading role)"), s)
    | some u =>
      if u.role = "sender" ∧ callerText ≠ w.authorId then
        (.err (.Forbidden "You can only edit your own selling item."), s)
      else
        (.err (.InternalError "ReferenceError: current is not defined"), s)

/-- `getInactiveWastes()`: the role guard
`userStorage.get(ic.caller()).Some.role !== "buyer"` runs before the `try`
block, so an unregistered caller (for whom `.Some` is `undefined`) traps
with an uncaught `TypeError`; a registered caller without the `"buyer"` role
gets `Forbidden`; otherwise the listings whose boolean `status` is strictly
equal to the string "inactive" (that is, none) are returned. -/
def getInactiveWastes (s : CanisterState) (callerText : String) :
    Outcome (List JsWaste) × CanisterState :=
  match getA callerText s.users with
  | none =>
    (.trap "TypeError: Cannot read properties of undefined (reading role)", s)
  | some u =>
    if u.role ≠ "buyer" then
      (.err (.Forbidden "Only buyer can verify and edit your waste items"), s)
    else
      (.ok ((s.wastes.map Prod.snd).filter
        (fun w => jsStrictEq (.vBool w.status) (.vStr "inactive"))), s)

/-- `processPayment(wasteId, amount, paymentMethod)`: the eligibility guard
`waste == None || waste.Some.status !== "active"` compares the boolean
`status` of a stored listing to the string "active" by strict equality, so
it rejects an absent listing and every present listing alike with
`BadRequest`.  The remaining branches are kept faithfully: the role guard
demands the role `"buyer"`, the fee is the floating-point
`Number(amount) * 0.05` (a non-integral product throws inside the `try` and
reports `InternalError`), and a successful run would store the payment under
a fresh uuid with a `TX_`-prefixed transaction id. -/
def processPayment (s : CanisterState) (callerText wasteId : String)
    (amount : Nat) (paymentMethod : String) (t : Nat) (uuid1 uuid2 : String) :
    Outcome JsPayment × CanisterState :=
  match getA wasteId s.wastes with
  | none => (.err (.BadRequest "Invalid waste item"), s)
  | some w =>
    if jsStrictEq (.vBool w.status) (.vStr "active") then
      match getA callerText s.users with
      | none => (.err (.Unauthorized "Only buyers can process payments"), s)
      | some u =>
        if u.role ≠ "buyer" then
          (.err (.Unauthorized "Only buyers can process payments"), s)
        else
          match feesViaFloat amount with
          | none =>
            (.err (.InternalError
              "RangeError: the number 0.05 * amount is not an integer"), s)
          | some fees =>
            let p : JsPayment :=
              { id := uuid1, waste_id := wasteId, weight := w.weight
                amount := amount, payment_method := paymentMethod
                transaction_id := "TX_" ++ uuid2, paid_at := t, fees := fees }
            (.ok p, { s with payments := putA p.id p s.payments })
    else
      (.err (.BadRequest "Invalid waste item"), s)

/-- `generateCorrelationId(productId)`: the source hash of the template
string `productId + "_" + ic.caller().toText() + "_" + ic.time()`; caller
and time are the ambient values passed explicitly here. -/
def generateCorrelationId (productId callerText : String) (t : Nat) : Nat :=
  hash (productId ++ "_" ++ callerText ++ "_" ++ toString t)

/-! ### Ledger verifier -/

/-- A transfer operation recorded in a ledger block.  Addresses are the
textual form of the derived ledger account (the derivation function of the
source, `binaryAddressFromPrincipal`, is an undeclared identifier and is
passed as an explicit parameter of the verifier below). -/
structure LedgerTransfer : Type where
  fromAddr : String
  toAddr : String
  amountE8s : Nat
deriving DecidableEq

/-- The operation of a ledger block: a transfer, or some other operation
kind (mint/burn), for which `operation.Transfer?.amount.e8s` evaluates to
`undefined` in the source and the amount comparison fails. -/
inductive LedgerOperation : Type
  | transfer : LedgerTransfer → LedgerOperation
  | other : LedgerOperation
deriving DecidableEq

/-- A ledger block as the source reads it: the transaction memo and the
optional recorded operation. -/
structure LedgerBlock : Type where
  memo : Nat
  operation : Option LedgerOperation
deriving DecidableEq

/-- The matching predicate of `verifyPaymentInternal` for one block: the
block records an operation, the transaction memo equals the expected
correlation id, the hashes of the derived caller and receiver addresses
equal the hashes of the transfer source and destination, and the amount
matches.  A non-transfer operation never matches (the optional chain on
`Transfer` yields `undefined`). -/
def blockMatches (callerText receiverText : String) (amount memo : Nat)
    (addrOf : String → String) (b : LedgerBlock) : Bool :=
  match b.operation with
  | none => false
  | some .other => false
  | some (.transfer tr) =>
    b.memo == memo
      && hash (addrOf callerText) == hash tr.fromAddr
      && hash (addrOf receiverText) == hash tr.toAddr
      && amount == tr.amountE8s

/-- `verifyPaymentInternal(receiver, amount, block, memo)`: queries the
ledger for a window of blocks (`query_blocks` with `length: 1`) and reports
whether some returned block matches.  The external call result `blocks` and
the address derivation `addrOf` are explicit parameters: both cross the
system boundary (and the source never declares `icpCanister` or
`binaryAddressFromPrincipal`). -/
def verifyPaymentInternal (callerText receiverText : String)
    (amount memo : Nat) (addrOf : String → String)
    (blocks : List LedgerBlock) : Bool :=
  blocks.any (blockMatches callerText receiverText amount memo addrOf)

/-- The matching criterion as the specification words it: the transfer's
source and destination **addresses themselves** equal the caller's and the
receiver's derived ledger addresses (compare `blockMatches`, which only
compares their hashes). -/
def specAddressMatch (callerText receiverText : String) (amount memo : Nat)
    (addrOf : String → String) (b : LedgerBlock) : Prop :=
  ∃ tr : LedgerTransfer, b.operation = some (.transfer tr) ∧ b.memo = memo ∧
    tr.fromAddr = addrOf callerText ∧ tr.toAddr = addrOf receiverText ∧
    tr.amountE8s = amount

/-! ### Pending orders -/

/-- A pending order.  Modelled from the spec: the source's `pendingOrders`
table is referenced by `discardByTimeout` but never declared; §3 gives the
record {correlation id, listing id, buyer identity, receiver identity,
amount, deadline}, extended with the payment method that `confirm` copies
into the Payment record. -/
structure PendingOrder : Type where
  memo : Nat
  wasteId : String
  buyer : String
  receiver : String
  amount : Nat
  method : String
  deadline : Nat
deriving DecidableEq

/-- `discardByTimeout(memo, delay)` schedules
`pendingOrders.remove(memo)`; the embedding is the effect of the fired
timer callback on the pending-orders table. -/
def discardByTimeout (orders : List (Nat × PendingOrder)) (memo : Nat) :
    List (Nat × PendingOrder) := removeA memo orders

/-- Modelled from the spec: the repository declares no `confirm` endpoint
(§4.4 `confirm(correlationId) → Payment`).  Looks up the live pending order
for the correlation id and fails with `BadRequest` when none exists
(duplicate or late confirmation); otherwise computes
`fee = amount * 5 / 100` in integer arithmetic, persists a Payment record
carrying the listing's weight and a fresh transaction id, removes the
pending order and disarms its timeout. -/
def confirmPayment (s : CanisterState) (orders : List (Nat × PendingOrder))
    (memo : Nat) (t : Nat) (uuid txid : String) :
    Outcome JsPayment × CanisterState × List (Nat × PendingOrder) :=
  match getA memo orders with
  | none =>
    (.err (.BadRequest "no live pending order for this correlation id"),
      s, orders)
  | some o =>
    match getA o.wasteId s.wastes with
    | none => (.err (.NotFound "Waste not found"), s, orders)
    | some w =>
      let p : JsPayment :=
        { id := uuid, waste_id := o.wasteId, weight := w.weight
          amount := o.amount, payment_method := o.method
          transaction_id := txid, paid_at := t, fees := o.amount * 5 / 100 }
      (.ok p, { s with payments := putA uuid p s.payments },
        removeA memo orders)

/-! ### Concrete scenarios used by the claim theorems -/

/-- An active sender account. -/
def sallyUser : JsUser :=
  { id := "sally", name := "sender", role := "sender", status := true
    createdAt := 1, updatedAt := 1 }

/-- A second, distinct active sender account. -/
def samUser : JsUser :=
  { id := "sam", name := "sender", role := "sender", status := true
    createdAt := 1, updatedAt := 1 }

/-- An active receiver account. -/
def ritaUser : JsUser :=
  { id := "rita", name := "receiver", role := "receiver", status := true
    createdAt := 1, updatedAt := 1 }

/-- An unverified listing authored by `sally`. -/
def wasteUnverified : JsWaste :=
  { id := "w1", categoryId := "c1", description := "scrap", weight := 10
    status := false, authorId := "sally", senderId := none
    createdAt := 1, updatedAt := 1 }

/-- The same listing with `status` already flipped to verified. -/
def wasteVerified : JsWaste := { wasteUnverified with status := true }

/-- A payload that targets listing `w1` and requests `status := true`. -/
def payloadVerify : JsWastePayload :=
  { id := "w1", categoryId := "c1", description := "scrap", weight := 10
    status := true }

/-- A payload that targets listing `w1` and requests `status := false`. -/
def payloadUnverify : JsWastePayload := { payloadVerify with status := false }

/-- State for the C1 scenario: a registered active user and a verified
listing, the best case for a payment attempt. -/
def c1State : CanisterState :=
  { users := [("alice", { id := "alice", name := "sender", role := "sender"
                          status := true, createdAt := 1, updatedAt := 1 })]
    wastes := [("w1", { id := "w1", categoryId := "c1", description := "scrap"
                        weight := 10, status := true, authorId := "bob"
                        senderId := none, createdAt := 1, updatedAt := 1 })]
    payments := [] }

/-- State for the C2 scenario. -/
def c2State : CanisterState :=
  { users := [("bella", { id := "bella", name := "receiver"
                          role := "receiver", status := true
                          createdAt := 1, updatedAt := 1 })]
    wastes := [("w2", { id := "w2", categoryId := "c1", description := "cans"
                        weight := 4, status := true, authorId := "sol"
                        senderId := none, createdAt := 1, updatedAt := 1 })]
    payments := [] }

/-- State for the C3 witness: one stored listing, no payments. -/
def c3State : CanisterState :=
  { users := [], wastes := [("w1", wasteUnverified)], payments := [] }

/-- A live pending order for the C3 witness. -/
def c3Order : PendingOrder :=
  { memo := 42, wasteId := "w1", buyer := "bob", receiver := "rita"
    amount := 1000, method := "card", deadline := 60 }

/-- The payment the modelled confirm produces for `c3Order`. -/
def c3Pay : JsPayment :=
  { id := "u1", waste_id := "w1", weight := 10, amount := 1000
    payment_method := "card", transaction_id := "TX1", paid_at := 7
    fees := 50 }

/-- State for the C4/C5 witnesses: two senders, a receiver, and the listing
authored by `sally`. -/
def c45State : CanisterState :=
  { users := [("sally", sallyUser), ("sam", samUser), ("rita", ritaUser)]
    wastes := [("w1", wasteUnverified)], payments := [] }

/-- The C4/C5 state with the listing already verified. -/
def c45StateVerified : CanisterState :=
  { c45State with wastes := [("w1", wasteVerified)] }

/-- State for the C9 scenario: one registered user; the caller `mallory` of
the scenario is unregistered. -/
def c9State : CanisterState :=
  { users := [("sally", sallyUser)], wastes := [("w1", wasteUnverified)]
    payments := [] }

/-- The ledger block of the C8 counterexample: a transfer with the expected
memo and amount whose source address "BB" differs from the derived caller
address "Aa" but has the same `hash` (both hash to 2112). -/
def c8Block : LedgerBlock :=
  { memo := 42
    operation := some (.transfer
      { fromAddr := "BB", toAddr := "rcv", amountE8s := 500 }) }

/-! ### Helper lemmas -/

theorem getA_putA_same {κ α : Type} [DecidableEq κ] (k : κ) (v : α)
    (l : List (κ × α)) : getA k (putA k v l) = some v := by
  induction l with
  | nil => simp [putA, getA]
  | cons hd t ih =>
    obtain ⟨k', v'⟩ := hd
    by_cases hk : k' = k
    · simp [putA, hk, getA]
    · simp [putA, hk, getA, ih]

theorem getA_removeA_same {κ α : Type} [DecidableEq κ] (k : κ)
    (l : List (κ × α)) : getA k (removeA k l) = none := by
  induction l with
  | nil => simp [removeA, getA]
  | cons hd t ih =>
    obtain ⟨k', v'⟩ := hd
    by_cases hk : k' = k
    · simp [removeA, hk, ih]
    · simp [removeA, hk, getA, ih]

theorem hash_lt (s : String) : hash s < 4294967296 := by
  unfold hash
  dsimp only
  split <;> omega

/-! ### Claim theorems -/

/-- Claim C1 (code-bug evidence).  The claim says the payment operation
computes `fee = floor(amount * 5 / 100)` in exact integer arithmetic
(1000 → 50, 7 → 0).  On the code: the operation never reaches the fee
computation — even with a registered active user and a stored verified
listing, `amount = 1000` is rejected with `BadRequest` because the guard
compares the boolean listing status to the string "active" — and the fee
expression itself is the floating-point `Number(amount) * 0.05`, which yields
the non-integral double 0.35000000000000003 at `amount = 7` (so the nat64
conversion throws) rather than the integer `floor(7 * 5 / 100) = 0`. -/
theorem claim_C1_fee_never_integer_floor :
    processPayment c1State "alice" "w1" 1000 "card" 9 "p1" "t1"
        = (.err (.BadRequest "Invalid waste item"), c1State)
    ∧ feesViaFloat 1000 = some 50
    ∧ feesViaFloat 7 = none
    ∧ 1000 * 5 / 100 = 50
    ∧ 7 * 5 / 100 = 0 := by
  refine ⟨by decide, by decide, by decide, by decide, by decide⟩

/-- Claim C2 (code-bug evidence).  The claim says a Payment record is
persisted only after the ledger verifier has reported a successful match for
the pending order.  On the code: `processPayment` contains no call to
`verifyPaymentInternal` (which is dead code whose `icpCanister` and
`binaryAddressFromPrincipal` are undeclared) and no pending-order lookup; it
rejects every request — here a receiver paying for an existing verified
listing — with `BadRequest` before its unconditional persistence path, so
the claimed verification-then-persist flow does not exist in the code. -/
theorem claim_C2_no_verification_before_persist :
    processPayment c2State "bella" "w2" 250 "card" 5 "p1" "t1"
        = (.err (.BadRequest "Invalid waste item"), c2State)
    ∧ (processPayment c2State "bella" "w2" 250 "card" 5 "p1" "t1").2.payments
        = c2State.payments := by
  refine ⟨by decide, by decide⟩

/-- Claim C5 (code-bug evidence).  The claim says re-unverifying an
already-verified listing fails with `InvalidWasteStatusUpdate` and that a
receiver who is not the author can flip status from unverified to verified
once.  On the code: receiver `rita` attempting to verify `sally`'s
unverified listing gets `InternalError` (the update path evaluates the
undeclared variable `current`, and no `InvalidWasteStatusUpdate` check
exists anywhere in `updateWaste`), the listing is not updated; and the
attempt to set the verified listing back to unverified equally ends in
`InternalError`, not `InvalidWasteStatusUpdate`. -/
theorem claim_C5_update_path_internal_error :
    updateWaste c45State "rita" payloadVerify
        = (.err (.InternalError "ReferenceError: current is not defined"),
           c45State)
    ∧ updateWaste c45StateVerified "sally" payloadUnverify
        = (.err (.InternalError "ReferenceError: current is not defined"),
           c45StateVerified)
    ∧ updateWaste c45StateVerified "rita" payloadUnverify
        = (.err (.InternalError "ReferenceError: current is not defined"),
           c45StateVerified) := by
  refine ⟨by decide, by decide, by decide⟩

/-- Claim C9 (code-bug evidence).  The claim says every core operation, for
every caller (including an unregistered one), returns a tagged
success-or-error result and never aborts with an uncaught exception.  On the
code: `getInactiveWastes` evaluates
`userStorage.get(ic.caller()).Some.role` before entering its `try` block, so
the unregistered caller `mallory` makes the call abort with an uncaught
`TypeError` instead of any tagged result. -/
theorem claim_C9_uncaught_trap_on_unregistered_caller :
    getInactiveWastes c9State "mallory"
      = (.trap "TypeError: Cannot read properties of undefined (reading role)",
         c9State) := by
  decide

/-- Claim C4 (confirmed).  Whenever the caller is a registered user with
role `sender` who is not the author of an existing listing, `updateWaste` on
that listing returns `Forbidden` and leaves the state, in particular the
stored listing, unchanged. -/
theorem claim_C4_foreign_sender_forbidden (s : CanisterState)
    (caller : String) (p : JsWastePayload) (w : JsWaste) (u : JsUser)
    (hw : getA p.id s.wastes = some w) (hu : getA caller s.users = some u)
    (hrole : u.role = "sender") (hne : caller ≠ w.authorId) :
    updateWaste s caller p
      = (.err (.Forbidden "You can only edit your own selling item."), s) := by
  simp [updateWaste, hw, hu, hrole, hne]

/-- Witness for claim C4: sender `sam` attempts to edit `sally`'s listing. -/
theorem claim_C4_witness :
    updateWaste c45State "sam" payloadVerify
      = (.err (.Forbidden "You can only edit your own selling item."),
         c45State) :=
  claim_C4_foreign_sender_forbidden c45State "sam" payloadVerify
    wasteUnverified samUser (by decide) (by decide) (by decide) (by decide)

/-- Claim C6 (confirmed).  A listing payload submitted by a registered,
active caller makes `createWaste` succeed with a stored listing whose
`authorId` is the caller and whose `status` is the payload's status; an
unregistered caller fails with `Unauthorized` and a deactivated caller with
`Forbidden`. -/
theorem claim_C6_createWaste_author_and_status (s : CanisterState)
    (caller : String) (p : JsWastePayload) (t : Nat) :
    (getA caller s.users = none →
      createWaste s caller p t
        = (.err (.Unauthorized "Create an account first"), s))
    ∧ (∀ u : JsUser, getA caller s.users = some u → u.status = false →
      createWaste s caller p t
        = (.err (.Forbidden "Account is currently deactived"), s))
    ∧ (∀ u : JsUser, getA caller s.users = some u → u.status = true →
      ∃ w : JsWaste,
        createWaste s caller p t
            = (.ok w, { s with wastes := putA p.id w s.wastes })
        ∧ w.authorId = caller ∧ w.status = p.status
        ∧ getA p.id (createWaste s caller p t).2.wastes = some w) := by
  refine ⟨?_, ?_, ?_⟩
  · intro h
    simp [createWaste, h]
  · intro u hu hs
    simp [createWaste, hu, hs]
  · intro u hu hs
    refine ⟨{ id := p.id, categoryId := p.categoryId
              description := p.description, weight := p.weight
              status := p.status, authorId := caller, senderId := none
              createdAt := t, updatedAt := t }, ?_, rfl, rfl, ?_⟩
    · simp [createWaste, hu, hs]
    · simp [createWaste, hu, hs, getA_putA_same]

/-- Witness for claim C6: the active sender `sally` creates a listing. -/
theorem claim_C6_witness :
    ∃ w : JsWaste,
      createWaste c9State "sally" payloadVerify 5
          = (.ok w, { c9State with wastes := putA "w1" w c9State.wastes })
      ∧ w.authorId = "sally" ∧ w.status = true
      ∧ getA "w1" (createWaste c9State "sally" payloadVerify 5).2.wastes
          = some w :=
  (claim_C6_createWaste_author_and_status c9State "sally" payloadVerify 5).2.2
    sallyUser (by decide) (by decide)

/-- Claim C7 (confirmed).  Correlation-id generation is deterministic: two
generate calls with identical listing id, caller identity and timestamp
yield the same correlation id, and the id fits in 64 bits (it is the
absolute value of a signed 32-bit hash, hence below 2^32). -/
theorem claim_C7_correlation_id_deterministic (p c : String) (t : Nat)
    (p' c' : String) (t' : Nat) (hp : p = p') (hc : c = c') (ht : t = t') :
    generateCorrelationId p c t = generateCorrelationId p' c' t'
    ∧ generateCorrelationId p c t < 2 ^ 64 := by
  subst hp
  subst hc
  subst ht
  refine ⟨rfl, ?_⟩
  have h1 := hash_lt (p ++ "_" ++ c ++ "_" ++ toString t)
  have h2 : (4294967296 : Nat) < 2 ^ 64 := by norm_num
  unfold generateCorrelationId
  omega

/-- Witness for claim C7 at a concrete triple. -/
theorem claim_C7_witness :
    generateCorrelationId "w1" "alice" 5 = generateCorrelationId "w1" "alice" 5
    ∧ generateCorrelationId "w1" "alice" 5 < 2 ^ 64 :=
  claim_C7_correlation_id_deterministic "w1" "alice" 5 "w1" "alice" 5
    rfl rfl rfl

/-- Claim C10 (confirmed).  For every state, caller and input,
`processPayment` returns `Err BadRequest` and leaves the state (in
particular the payment store) unchanged: the eligibility guard compares the
boolean listing status to the string "active", which strict equality never
satisfies; and independently `createUser` only ever stores the roles
"sender" or "receiver", so no user could pass the later "buyer" role
check. -/
theorem claim_C10_processPayment_always_fails :
    (∀ (s : CanisterState) (c wid : String) (a : Nat) (m : String) (t : Nat)
        (u1 u2 : String),
      processPayment s c wid a m t u1 u2
        = (.err (.BadRequest "Invalid waste item"), s))
    ∧ (∀ (s : CanisterState) (c nm : String) (t : Nat) (u : JsUser)
        (s' : CanisterState),
      createUser s c nm t = (.ok u, s') →
        u.role = "sender" ∨ u.role = "receiver") := by
  constructor
  · intro s c wid a m t u1 u2
    cases hw : getA wid s.wastes with
    | none => simp [processPayment, hw]
    | some w => simp [processPayment, hw, jsStrictEq]
  · intro s c nm t u s' h
    unfold createUser at h
    by_cases hc : containsA c s.users
    · rw [if_pos hc] at h
      exact absurd h (by simp)
    · rw [if_neg hc] at h
      by_cases hr : nm ≠ "sender" ∧ nm ≠ "receiver"
      · rw [if_pos hr] at h
        exact absurd h (by simp)
      · rw [if_neg hr] at h
        simp only [Prod.mk.injEq, Outcome.ok.injEq] at h
        have hrole : u.role = nm := by
          rw [← h.1]
        push_neg at hr
        by_cases hs : nm = "sender"
        · exact Or.inl (hrole.trans hs)
        · exact Or.inr (hrole.trans (hr hs))

/-- Witness for claim C10: a concrete payment attempt fails, and a concrete
successful `createUser` call stores the role "sender". -/
theorem claim_C10_witness :
    processPayment { users := [], wastes := [], payments := [] }
        "a" "w" 1 "m" 0 "u" "v"
      = (.err (.BadRequest "Invalid waste item"),
         { users := [], wastes := [], payments := [] })
    ∧ (({ id := "a", name := "sender", role := "sender", status := true
          createdAt := 0, updatedAt := 0 } : JsUser).role = "sender"
        ∨ ({ id := "a", name := "sender", role := "sender", status := true
             createdAt := 0, updatedAt := 0 } : JsUser).role = "receiver") :=
  ⟨claim_C10_processPayment_always_fails.1
      { users := [], wastes := [], payments := [] } "a" "w" 1 "m" 0 "u" "v",
   claim_C10_processPayment_always_fails.2
      { users := [], wastes := [], payments := [] } "a" "sender" 0 _ _ rfl⟩

/-- Claim C3 (confirmed against the spec-modelled confirm operation).  After
the timeout has discarded the pending order of a correlation id, a
subsequent confirm on that id fails with the `BadRequest` rejection and
creates no Payment record; and after a successful confirm has consumed the
order, a second confirm on the same id fails the same way. -/
theorem claim_C3_confirm_after_discard_fails :
    (∀ (s : CanisterState) (orders : List (Nat × PendingOrder))
        (memo t : Nat) (uuid txid : String),
      (confirmPayment s (discardByTimeout orders memo) memo t uuid txid).1
          = .err (.BadRequest "no live pending order for this correlation id")
        ∧ (confirmPayment s (discardByTimeout orders memo) memo t uuid
            txid).2.1 = s)
    ∧ (∀ (s : CanisterState) (orders : List (Nat × PendingOrder))
        (memo t : Nat) (uuid txid : String) (p : JsPayment)
        (s2 : CanisterState) (orders2 : List (Nat × PendingOrder))
        (t' : Nat) (uuid' txid' : String),
      confirmPayment s orders memo t uuid txid = (.ok p, s2, orders2) →
        (confirmPayment s2 orders2 memo t' uuid' txid').1
            = .err (.BadRequest "no live pending order for this correlation id")
          ∧ (confirmPayment s2 orders2 memo t' uuid' txid').2.1 = s2) := by
  constructor
  · intro s orders memo t uuid txid
    constructor <;>
      simp [confirmPayment, discardByTimeout, getA_removeA_same]
  · intro s orders memo t uuid txid p s2 orders2 t' uuid' txid' h
    unfold confirmPayment at h
    cases hget : getA memo orders with
    | none =>
      rw [hget] at h
      exact absurd h (by simp)
    | some o =>
      simp only [hget] at h
      cases hw : getA o.wasteId s.wastes with
      | none =>
        simp only [hw] at h
        exact absurd h (by simp)
      | some w =>
        simp only [hw] at h
        simp only [Prod.mk.injEq, Outcome.ok.injEq] at h
        have horders : orders2 = removeA memo orders := h.2.2.symm
        subst horders
        constructor <;> simp [confirmPayment, getA_removeA_same]

/-- Witness for claim C3: the order with memo 42 is confirmed once, and the
second confirm on the resulting state is rejected without touching the
payment store. -/
theorem claim_C3_witness :
    (confirmPayment { c3State with payments := putA "u1" c3Pay [] } [] 42 8
        "u2" "TX2").1
      = .err (.BadRequest "no live pending order for this correlation id")
    ∧ (confirmPayment { c3State with payments := putA "u1" c3Pay [] } [] 42 8
        "u2" "TX2").2.1
      = { c3State with payments := putA "u1" c3Pay [] } :=
  claim_C3_confirm_after_discard_fails.2 c3State [(42, c3Order)] 42 7 "u1"
    "TX1" c3Pay { c3State with payments := putA "u1" c3Pay [] } [] 8 "u2"
    "TX2" rfl

/-- Claim C8 counterexample.  As stated — with "addresses match" read as
equality of the derived addresses — the iff fails: the verifier accepts the
block whose transfer source address "BB" is different from the derived
caller address "Aa", because the code only compares the 32-bit hashes of the
addresses and `hash "Aa" = hash "BB" = 2112`. -/
theorem claim_C8_counterexample :
    ¬ (verifyPaymentInternal "Aa" "rcv" 500 42 (fun a => a) [c8Block] = true ↔
        ∃ b ∈ [c8Block], specAddressMatch "Aa" "rcv" 500 42 (fun a => a) b) := by
  intro h
  have hv : verifyPaymentInternal "Aa" "rcv" 500 42 (fun a => a) [c8Block]
      = true := by decide
  obtain ⟨b, hb, tr, hop, hmemo, hfrom, hto, hamt⟩ := h.mp hv
  have hb' : b = c8Block := List.mem_singleton.mp hb
  subst hb'
  have htr : LedgerTransfer.mk "BB" "rcv" 500 = tr := by
    have h1 : some (LedgerOperation.transfer
        (LedgerTransfer.mk "BB" "rcv" 500))
        = some (LedgerOperation.transfer tr) := hop
    injection h1 with h2
    injection h2
  rw [← htr] at hfrom
  exact absurd hfrom (by decide)

/-- Claim C8 (amended).  The ledger verify operation returns true iff some
block in the inspected window records a transfer whose memo equals the
correlation id, whose source and destination addresses have the same hash
as the caller's and the receiver's derived ledger addresses (the code
compares hashes, not the addresses themselves), and whose amount equals the
requested amount; it returns false when the window is exhausted without such
a match. -/
theorem claim_C8_verify_iff_hash_match (callerText receiverText : String)
    (amount memo : Nat) (addrOf : String → String)
    (blocks : List LedgerBlock) :
    verifyPaymentInternal callerText receiverText amount memo addrOf blocks
        = true ↔
      ∃ b ∈ blocks, ∃ tr : LedgerTransfer,
        b.operation = some (.transfer tr) ∧ b.memo = memo ∧
        hash (addrOf callerText) = hash tr.fromAddr ∧
        hash (addrOf receiverText) = hash tr.toAddr ∧
        amount = tr.amountE8s := by
  unfold verifyPaymentInternal
  rw [List.any_eq_true]
  constructor
  · rintro ⟨b, hb, hmatch⟩
    refine ⟨b, hb, ?_⟩
    unfold blockMatches at hmatch
    cases hop : b.operation with
    | none =>
      rw [hop] at hmatch
      simp at hmatch
    | some op =>
      cases op with
      | other =>
        rw [hop] at hmatch
        simp at hmatch
      | transfer tr =>
        rw [hop] at hmatch
        simp only [Bool.and_eq_true, beq_iff_eq] at hmatch
        exact ⟨tr, rfl, hmatch.1.1.1, hmatch.1.1.2, hmatch.1.2, hmatch.2⟩
  · rintro ⟨b, hb, tr, hop, h1, h2, h3, h4⟩
    refine ⟨b, hb, ?_⟩
    unfold blockMatches
    rw [hop]
    simp [h1, h2, h3, h4]

end WasteMarket
